import Mathlib

/-!
Shallow embedding of pkg/pterodactyl/pterodactyl_client.go, a Go client for the
Pterodactyl panel REST API, together with theorems checking the natural-language
specification of the library against the code.

Modelling conventions:
- Go strings are Lean String values; Go slices are Lean List values; a Go nil
  slice is distinguished from a present empty slice with Option.
- The network, the JSON decoder and the filesystem are external effects; they
  enter the model as explicit oracle arguments (the response the HTTP client
  produced, the result of decoding a given body, the result of os.Create and
  io.Copy). The functions below reproduce the control flow of the Go source on
  top of these oracles.
- time.Time is modelled as Nat: the Go zero value of time.Time corresponds to 0,
  so time.Time.IsZero t corresponds to CompletedAt = 0.
- The unbounded Go for loop of BackupServerWithWait is modelled with an explicit
  fuel argument; a result of none means the fuel ran out before the loop exited.
-/

namespace PterodactylSDK

/-- Modelled from the spec: the target server descriptor, a base URL plus a
bearer credential (spec section 3); the struct itself is not under src. -/
structure PterodactylServer where
  Url : String
  ApiKey : String
deriving DecidableEq

/-- Modelled from the spec: attributes of a server record; only the UUID field
is read by the client code (server.Attributes.UUID). -/
structure ServerAttributes where
  UUID : String
deriving DecidableEq

/-- Modelled from the spec: a server record as returned by the panel. -/
structure Server where
  Attributes : ServerAttributes
deriving DecidableEq

/-- Modelled from the spec: attributes of a backup record; CompletedAt is the
completion timestamp, 0 standing for the Go time.Time zero (unset) value. -/
structure BackupAttributes where
  UUID : String
  CompletedAt : Nat
deriving DecidableEq

/-- Modelled from the spec: a backup record as returned by the panel. -/
structure Backup where
  Attributes : BackupAttributes
deriving DecidableEq

/-- Modelled from the spec: attributes of the signed download descriptor, a
temporary URL (backupUrl.Attributes.URL in the client code). -/
structure BackupUrlAttributes where
  URL : String
deriving DecidableEq

/-- Modelled from the spec: the signed download descriptor. -/
structure BackupUrl where
  Attributes : BackupUrlAttributes
deriving DecidableEq

/-- Modelled from the spec: one entry of the API error payload, a pair of a
code and a detail string (spec section 3). -/
structure ApiError where
  code : String
  detail : String
deriving DecidableEq

/-- Modelled from the spec: the API error payload, an ordered collection of
code and detail pairs. -/
abbrev ApiErrors := List ApiError

/-- Modelled from the spec: the servers collection payload. The collection
field is Option so that a Go nil slice (JSON field absent, slice left at its
zero value) is distinct from a present empty slice. -/
structure Servers where
  Servers : Option (List Server)
deriving DecidableEq

/-- Modelled from the spec: the backups collection payload, with the same
nil-versus-empty distinction as the servers payload. -/
structure Backups where
  Backups : Option (List Backup)
deriving DecidableEq

/-- Embedding of the package-level variable WaitForBackupSeconds int64 = 5. -/
def WaitForBackupSeconds : Int := 5

/-- Embedding of the constant ApiEndpointBase = "api". -/
def ApiEndpointBase : String := "api"

/-- Embedding of the constant ApiEndpointServers = "client". -/
def ApiEndpointServers : String := "client"

/-- Embedding of the constant ApiEndpointServer = "client/servers". -/
def ApiEndpointServer : String := "client/servers"

/-- Embedding of the constant ApiEndpointBackups = "backups". -/
def ApiEndpointBackups : String := "backups"

/-- Embedding of buildApiUrl: the base URL, the fixed prefix and the endpoint
joined by Sprintf with slashes, then each sub path appended after a slash by
the for loop. -/
def buildApiUrl (pterodactylServer : PterodactylServer) (endpoint : String)
    (subPaths : List String) : String :=
  subPaths.foldl (fun url path => url ++ "/" ++ path)
    (pterodactylServer.Url ++ "/" ++ ApiEndpointBase ++ "/" ++ endpoint)

/-- Spec-side formula for the sub path part of a URL: one slash-prefixed
occurrence of each segment, in order; empty list gives the empty string. -/
def joinSegments (subPaths : List String) : String :=
  subPaths.foldr (fun s acc => "/" ++ s ++ acc) ""

/-- Structured form of the error values callApi can return. The apiFailure
constructor carries the full decoded error payload that the Go code formats
into the message "api call failed with errors: ..."; the parse constructors
carry the message of the json.Unmarshal error that the Go code returns
unchanged. -/
inductive CallError where
  | transport (msg : String)
  | apiFailure (errs : ApiErrors)
  | errorBodyParse (msg : String)
  | resultParse (msg : String)
deriving DecidableEq

/-- Modelled from the spec: rendering of the API error payload into text, one
code and detail pair per entry; the String method of ApiErrors is not under
src. Used only to render CallError.message. -/
def renderApiErrors (errs : ApiErrors) : String :=
  String.intercalate ("; ") (errs.map fun e => "code: " ++ e.code ++ ", detail: " ++ e.detail)

/-- Message carried by each error value, following the fmt.Errorf format
strings of the Go source. -/
def CallError.message : CallError → String
  | .transport m => m
  | .apiFailure errs => "api call failed with errors: " ++ renderApiErrors errs
  | .errorBodyParse m => m
  | .resultParse m => m

/-- Response the HTTP client produced for one request, as seen by callApi after
the ioutil.ReadAll line: the status code, the bytes ReadAll handed back
(possibly only the bytes read before a failure), and whether ReadAll also
reported an error (which the code discards with the blank identifier). -/
structure HttpResponse where
  StatusCode : Nat
  bodyBytes : String
  readErr : Bool
deriving DecidableEq

/-- External effects of one callApi run: whether http.NewRequest succeeded
(its error is discarded with the blank identifier, and on failure the returned
request pointer is nil), and the outcome of http.DefaultClient.Do. -/
structure HttpEnv where
  newReqOk : Bool
  doResult : Except String HttpResponse

/-- Outcome of one callApi run: a Go panic (nil pointer dereference), a normal
return with the decoded value, or a normal return with an error. -/
inductive CallOutcome (T : Type) where
  | panicked
  | ok (t : T)
  | error (e : CallError)
deriving DecidableEq

/-- Outcome of callApi together with whether http.DefaultClient.Do was ever
reached during the run. -/
structure CallResult (T : Type) where
  outcome : CallOutcome T
  clientInvoked : Bool
deriving DecidableEq

/-- Whether the outcome is an error return (not a success and not a panic). -/
def CallOutcome.isError {T : Type} : CallOutcome T → Bool
  | .error _ => true
  | _ => false

/-- Embedding of the generic callApi. The JSON decoders for the success body
and the error body are oracle arguments (dec and decErr, an Except whose error
is the json.Unmarshal message). Control flow follows the source: when
http.NewRequest failed, its error was discarded and req is nil, so the
req.Header.Add call dereferences a nil pointer and panics before the client
runs; a Do error is returned unchanged; the ReadAll error is discarded and the
returned bytes are used as the body; on a status other than 200 the body is
decoded as ApiErrors (a decode failure there is returned as the error,
otherwise the aggregated api failure is returned); on status 200 the body is
decoded into the caller-supplied type, and the decode result is returned. -/
def callApi {T : Type} (dec : String → Except String T)
    (decErr : String → Except String ApiErrors) (env : HttpEnv) : CallResult T :=
  if env.newReqOk = false then
    { outcome := .panicked, clientInvoked := false }
  else
    match env.doResult with
    | .error e => { outcome := .error (.transport e), clientInvoked := true }
    | .ok res =>
      if res.StatusCode ≠ 200 then
        match decErr res.bodyBytes with
        | .error m => { outcome := .error (.errorBodyParse m), clientInvoked := true }
        | .ok apiErrors => { outcome := .error (.apiFailure apiErrors), clientInvoked := true }
      else
        match dec res.bodyBytes with
        | .error m => { outcome := .error (.resultParse m), clientInvoked := true }
        | .ok t => { outcome := .ok t, clientInvoked := true }

/-- Outcome of a resource accessor: the callApi outcome, or the extra
domain-validation error the accessor adds after a successful call. -/
inductive AccessorOutcome (T : Type) where
  | panicked
  | error (e : CallError)
  | domainError (msg : String)
  | ok (t : T)
deriving DecidableEq

/-- Embedding of GetServers: one callApi call decoding into the Servers
payload, then the nil check on the collection field; a nil collection fails
with the domain error, any present collection (empty included) is returned. -/
def GetServers (dec : String → Except String Servers)
    (decErr : String → Except String ApiErrors) (env : HttpEnv) :
    AccessorOutcome (List Server) :=
  match (callApi dec decErr env).outcome with
  | .panicked => .panicked
  | .error e => .error e
  | .ok servers =>
    match servers.Servers with
    | none => .domainError ("no servers returned")
    | some list => .ok list

/-- Embedding of GetServerBackups: one callApi call decoding into the Backups
payload, then the nil check on the collection field, mirroring GetServers. -/
def GetServerBackups (dec : String → Except String Backups)
    (decErr : String → Except String ApiErrors) (env : HttpEnv) :
    AccessorOutcome (List Backup) :=
  match (callApi dec decErr env).outcome with
  | .panicked => .panicked
  | .error e => .error e
  | .ok backups =>
    match backups.Backups with
    | none => .domainError ("no backups returned")
    | some list => .ok list

/-- Error values DownloadServerBackup can return: a failure of the first
callApi (resolving the signed URL), a transport failure of the second Do, a
status other than 200 on the second response, a failure of os.Create, or a
failure of io.Copy. -/
inductive DownloadError where
  | api (e : CallError)
  | transport (msg : String)
  | statusNot200 (code : Nat)
  | createFailed (msg : String)
  | copyFailed (msg : String)
deriving DecidableEq

/-- Message carried by each download error, following the fmt.Errorf format
string of the source for the status branch. -/
def DownloadError.message : DownloadError → String
  | .api e => e.message
  | .transport m => m
  | .statusNot200 code => "download failed with status code " ++ toString code
  | .createFailed m => m
  | .copyFailed m => m

/-- State of the destination file handle after DownloadServerBackup returns:
never created, or created and then closed by the deferred out.Close() that runs
when the function returns. No exit path leaves the handle open, because every
return after os.Create passes the registered defer. -/
inductive HandleState where
  | notCreated
  | closed
deriving DecidableEq

/-- Observable filesystem state at the destination path after
DownloadServerBackup returns: the contents of the destination file (none if it
was never created) and the state of the handle the function created. -/
structure DownloadState where
  destContents : Option String
  handle : HandleState
deriving DecidableEq

/-- Embedding of DownloadServerBackup. Oracles: urlRes is the outcome of the
first callApi resolving the signed URL; doRes gives the second, unauthenticated
GET against that URL as a status code and body; createRes is the outcome of
os.Create; copyRes is the outcome of io.Copy, whose error carries the message
and the bytes already written before the failure. dest0 is the prior contents
of the destination path. The first component of the result is the Go return
pair, with ok standing for returning the created file handle and a nil error;
the second component is the resulting filesystem state. Control flow follows
the source: any early error returns before os.Create runs; the file is created
only inside the status 200 branch; a status other than 200 returns the
formatted status error without decoding the body; the deferred out.Close()
closes the handle on every return after the create. -/
def DownloadServerBackup (urlRes : Except CallError BackupUrl)
    (doRes : String → Except String (Nat × String))
    (createRes : Except String Unit)
    (copyRes : String → Except (String × String) Unit)
    (dest0 : Option String) : Except DownloadError Unit × DownloadState :=
  match urlRes with
  | .error e => (.error (.api e), { destContents := dest0, handle := .notCreated })
  | .ok backupUrl =>
    match doRes backupUrl.Attributes.URL with
    | .error e => (.error (.transport e), { destContents := dest0, handle := .notCreated })
    | .ok statusAndBody =>
      if statusAndBody.1 = 200 then
        match createRes with
        | .error m => (.error (.createFailed m), { destContents := dest0, handle := .notCreated })
        | .ok _ =>
          match copyRes statusAndBody.2 with
          | .error failure =>
            (.error (.copyFailed failure.1),
              { destContents := some failure.2, handle := .closed })
          | .ok _ =>
            (.ok (), { destContents := some statusAndBody.2, handle := .closed })
      else
        (.error (.statusNot200 statusAndBody.1),
          { destContents := dest0, handle := .notCreated })

/-- Observable events of the wait loop of BackupServerWithWait: one
GetServerBackup call, or one time.Sleep with its duration in seconds. -/
inductive PollEvent where
  | fetch
  | sleep (seconds : Int)
deriving DecidableEq

/-- Embedding of the for loop of BackupServerWithWait. The fetch oracle gives
the outcome of the i-th GetServerBackup call for a given backup UUID; the loop
threads the UUID of the record fetched last into the next call, as the source
reassigns backup each iteration. Fuel bounds the number of iterations of the
unbounded Go loop; none means the fuel ran out. Control flow follows the
source: a fetch error returns (nil, err) at once; a record whose CompletedAt
is not the zero value causes one sleep of WaitForBackupSeconds, then the loop
breaks and the record is returned; a record whose CompletedAt is the zero
value continues the loop immediately, with no sleep. -/
def backupWaitLoop (fetch : Nat → String → Except String Backup) :
    String → Nat → Nat → List PollEvent × Option (Except String Backup)
  | _, _, 0 => ([], none)
  | uuid, i, fuel + 1 =>
    match fetch i uuid with
    | .error e => ([.fetch], some (.error e))
    | .ok backup =>
      if backup.Attributes.CompletedAt ≠ 0 then
        ([.fetch, .sleep WaitForBackupSeconds], some (.ok backup))
      else
        let rest := backupWaitLoop fetch backup.Attributes.UUID (i + 1) fuel
        (.fetch :: rest.1, rest.2)

/-- Embedding of BackupServerWithWait: the initial BackupServer call (create
oracle), then the wait loop starting from the UUID of the created record. An
error result stands for the Go return (nil, err); an ok result stands for
returning the fetched record and a nil error. -/
def BackupServerWithWait (create : Except String Backup)
    (fetch : Nat → String → Except String Backup) (fuel : Nat) :
    List PollEvent × Option (Except String Backup) :=
  match create with
  | .error e => ([], some (.error e))
  | .ok backup => backupWaitLoop fetch backup.Attributes.UUID 0 fuel

/-- Number of fetch events in a poll trace. -/
def countFetches : List PollEvent → Nat
  | [] => 0
  | .fetch :: rest => countFetches rest + 1
  | .sleep _ :: rest => countFetches rest

/-- Concrete decoder fixture: returns 1 on the body "ok", a parse error on
every other body. -/
def decNat : String → Except String Nat :=
  fun s => if s = "ok" then .ok 1 else .error ("bad")

/-- Concrete decoder fixture: returns 2 on the body "B", a parse error on every
other body, the empty body included. -/
def decNatB : String → Except String Nat :=
  fun s => if s = "B" then .ok 2 else .error ("empty body")

/-- Concrete error-body decoder fixture: one code and detail pair on the body
"errs", a parse error otherwise. -/
def decApiErrs : String → Except String ApiErrors :=
  fun s => if s = "errs" then .ok [{ code := "c", detail := "d" }] else .error ("bad")

/-- Environment fixture: request constructed, response status 200, body "ok". -/
def env200ok : HttpEnv :=
  { newReqOk := true, doResult := .ok { StatusCode := 200, bodyBytes := "ok", readErr := false } }

/-- Environment fixture: request constructed, response status 500, body "errs". -/
def env500errs : HttpEnv :=
  { newReqOk := true, doResult := .ok { StatusCode := 500, bodyBytes := "errs", readErr := false } }

/-- Environment fixture: request constructed, response status 200, empty body. -/
def env200empty : HttpEnv :=
  { newReqOk := true, doResult := .ok { StatusCode := 200, bodyBytes := "", readErr := false } }

/-- Environment fixture: request constructed, response status 200, partial body
"B" together with a discarded ReadAll error. -/
def env200Bread : HttpEnv :=
  { newReqOk := true, doResult := .ok { StatusCode := 200, bodyBytes := "B", readErr := true } }

/-- Environment fixture: http.NewRequest failed, so the discarded error left a
nil request. -/
def envReqFail : HttpEnv :=
  { newReqOk := false, doResult := .ok { StatusCode := 200, bodyBytes := "B", readErr := true } }

/-- Backup fixture whose completion timestamp is the zero value. -/
def pendingB : Backup := { Attributes := { UUID := "b", CompletedAt := 0 } }

/-- Backup fixture whose completion timestamp is set. -/
def completedB : Backup := { Attributes := { UUID := "b", CompletedAt := 7 } }

/-- Fetch oracle fixture: a pending record on the first call, a completed
record on every later call. -/
def pollFetchPendingThenDone : Nat → String → Except String Backup :=
  fun i _ => if i = 0 then .ok pendingB else .ok completedB

/-- Fetch oracle fixture: a pending record on the first call, a transport
error on every later call. -/
def pollFetchPendingThenError : Nat → String → Except String Backup :=
  fun i _ => if i = 0 then .ok pendingB else .error ("boom")

end PterodactylSDK

namespace PterodactylSDK

lemma string_append_lit (x a b c : String) (h : a ++ b = c) : x ++ a ++ b = x ++ c := by
  rw [String.append_assoc, h]

lemma foldl_slash_eq_joinSegments (subPaths : List String) :
    ∀ init : String,
      subPaths.foldl (fun url path => url ++ "/" ++ path) init =
        init ++ joinSegments subPaths := by
  induction subPaths with
  | nil =>
    intro init
    simp [joinSegments, String.append_empty]
  | cons p ps ih =>
    intro init
    simp only [List.foldl_cons, joinSegments, List.foldr_cons] at *
    rw [ih]
    simp [String.append_assoc]

lemma buildApiUrl_eq (ps : PterodactylServer) (endpoint : String)
    (subPaths : List String) :
    buildApiUrl ps endpoint subPaths =
      ps.Url ++ "/api/" ++ endpoint ++ joinSegments subPaths := by
  unfold buildApiUrl ApiEndpointBase
  rw [foldl_slash_eq_joinSegments]
  rw [string_append_lit ps.Url "/" "api" "/api" rfl]
  rw [string_append_lit ps.Url "/api" "/" "/api/" rfl]

/-- C2: for every target server descriptor, endpoint and segment list, the URL
built by buildApiUrl is exactly the base, then /api/, then the endpoint, then
one slash-prefixed occurrence of each segment in order; with no segments there
is no trailing slash. -/
theorem buildApiUrl_builds_expected_url (ps : PterodactylServer)
    (endpoint : String) (subPaths : List String) :
    buildApiUrl ps endpoint subPaths =
      ps.Url ++ "/api/" ++ endpoint ++ joinSegments subPaths ∧
    buildApiUrl ps endpoint [] = ps.Url ++ "/api/" ++ endpoint := by
  constructor
  · exact buildApiUrl_eq ps endpoint subPaths
  · rw [buildApiUrl_eq ps endpoint []]
    show (ps.Url ++ "/api/" ++ endpoint) ++ "" = _
    rw [String.append_empty]

/-- URL requested by BackupServer: the endpoint is built with Sprintf from
ApiEndpointServer, the server UUID and ApiEndpointBackups, and the sub path
list is empty (nil in the Go call). -/
def BackupServerUrl (ps : PterodactylServer) (server : Server) : String :=
  buildApiUrl ps
    (ApiEndpointServer ++ "/" ++ server.Attributes.UUID ++ "/" ++ ApiEndpointBackups) []

/-- URL requested by GetServerBackups: the endpoint is ApiEndpointServer and
the sub paths are the server UUID followed by ApiEndpointBackups. -/
def GetServerBackupsUrl (ps : PterodactylServer) (server : Server) : String :=
  buildApiUrl ps ApiEndpointServer [server.Attributes.UUID, ApiEndpointBackups]

/-- C10: for every server, the URL used by BackupServer, which embeds the UUID
into the endpoint string, equals the URL used by GetServerBackups, which passes
the UUID and the backups suffix as sub paths; both are the base followed by
/api/client/servers/, the UUID and /backups. -/
theorem backup_urls_coincide (ps : PterodactylServer) (server : Server) :
    BackupServerUrl ps server = GetServerBackupsUrl ps server ∧
    BackupServerUrl ps server =
      ps.Url ++ "/api/client/servers/" ++ server.Attributes.UUID ++ "/backups" := by
  have hurl : BackupServerUrl ps server =
      ps.Url ++ "/api/client/servers/" ++ server.Attributes.UUID ++ "/backups" := by
    unfold BackupServerUrl ApiEndpointServer ApiEndpointBackups
    rw [buildApiUrl_eq]
    show (ps.Url ++ "/api/" ++ _) ++ "" = _
    rw [String.append_empty]
    rw [show ("client/servers" ++ "/" : String) = "client/servers/" from rfl]
    rw [String.append_assoc ("client/servers/" ++ server.Attributes.UUID) "/" "backups"]
    rw [show ("/" ++ "backups" : String) = "/backups" from rfl]
    rw [← String.append_assoc (ps.Url ++ "/api/") ("client/servers/" ++ server.Attributes.UUID) "/backups"]
    rw [← String.append_assoc (ps.Url ++ "/api/") "client/servers/" server.Attributes.UUID]
    rw [string_append_lit ps.Url "/api/" "client/servers/" "/api/client/servers/" rfl]
  refine ⟨?_, hurl⟩
  rw [hurl]
  unfold GetServerBackupsUrl ApiEndpointServer ApiEndpointBackups
  rw [buildApiUrl_eq]
  show _ = ps.Url ++ "/api/" ++ "client/servers" ++
    ("/" ++ server.Attributes.UUID ++ ("/" ++ "backups" ++ ""))
  rw [show ("/" ++ "backups" : String) = "/backups" from rfl]
  rw [String.append_empty]
  rw [string_append_lit ps.Url "/api/" "client/servers" "/api/client/servers" rfl]
  rw [← String.append_assoc (ps.Url ++ "/api/client/servers")
    ("/" ++ server.Attributes.UUID) "/backups"]
  rw [← String.append_assoc (ps.Url ++ "/api/client/servers") "/" server.Attributes.UUID]
  rw [string_append_lit ps.Url "/api/client/servers" "/" "/api/client/servers/" rfl]

/-- C3: given a constructed request and a response handed back by the HTTP
client, callApi on status 200 returns the caller-typed decode result (a decode
failure becomes an error); on any other status it decodes the body as the API
error payload and fails with the aggregated error carrying every code and
detail pair of that payload, and when the error body cannot be parsed it fails
with that parse error instead. -/
theorem callApi_response_handling {T : Type} (dec : String → Except String T)
    (decErr : String → Except String ApiErrors) (env : HttpEnv) (res : HttpResponse)
    (hreq : env.newReqOk = true) (hdo : env.doResult = .ok res) :
    (res.StatusCode = 200 →
      (∀ t, dec res.bodyBytes = .ok t → (callApi dec decErr env).outcome = .ok t) ∧
      (∀ m, dec res.bodyBytes = .error m →
        (callApi dec decErr env).outcome = .error (.resultParse m))) ∧
    (res.StatusCode ≠ 200 →
      (∀ errs, decErr res.bodyBytes = .ok errs →
        (callApi dec decErr env).outcome = .error (.apiFailure errs)) ∧
      (∀ m, decErr res.bodyBytes = .error m →
        (callApi dec decErr env).outcome = .error (.errorBodyParse m))) := by
  constructor
  · intro h200
    constructor
    · intro t ht
      simp [callApi, hreq, hdo, h200, ht]
    · intro m hm
      simp [callApi, hreq, hdo, h200, hm]
  · intro hne
    constructor
    · intro errs herrs
      simp [callApi, hreq, hdo, hne, herrs]
    · intro m hm
      simp [callApi, hreq, hdo, hne, hm]

/-- Witness for callApi_response_handling at concrete decoders and concrete
200 and 500 responses. -/
theorem callApi_response_handling_witness :
    (callApi decNat decApiErrs env200ok).outcome = .ok 1 ∧
    (callApi decNat decApiErrs env500errs).outcome =
      .error (.apiFailure [{ code := "c", detail := "d" }]) := by
  constructor
  · exact ((callApi_response_handling decNat decApiErrs env200ok
      { StatusCode := 200, bodyBytes := "ok", readErr := false } rfl rfl).1 rfl).1 1 rfl
  · exact ((callApi_response_handling decNat decApiErrs env500errs
      { StatusCode := 500, bodyBytes := "errs", readErr := false } rfl rfl).2
      (by decide)).1 [{ code := "c", detail := "d" }] rfl

/-- C9, counterexample to the claim as stated: when http.NewRequest fails, the
run panics adding a header to the nil request and the HTTP client is never
invoked (rather than the nil request being passed to the client); and when
ReadAll fails after reading the bytes "B", those bytes are decoded as the
body (rather than the body being treated as empty, which would have produced
a parse error with this decoder). -/
theorem callApi_discarded_errors_counterexample :
    (callApi decNat decApiErrs envReqFail).clientInvoked = false ∧
    (callApi decNat decApiErrs envReqFail).outcome = .panicked ∧
    (callApi decNatB decApiErrs env200Bread).outcome = .ok 2 ∧
    (callApi decNatB decApiErrs env200Bread).outcome ≠
      .error (.resultParse ("empty body")) :=
  ⟨rfl, rfl, rfl, by decide⟩

/-- C9 as amended: when the request was constructed, callApi returns an error
exactly when the round trip fails, the status is not 200, or a body decode
fails; the ReadAll error is discarded, so the outcome never depends on it; and
when http.NewRequest failed, the discarded error leaves a nil request, the
header write panics, and the client is never invoked. -/
theorem callApi_error_conditions {T : Type} (dec : String → Except String T)
    (decErr : String → Except String ApiErrors) (env : HttpEnv)
    (hreq : env.newReqOk = true) :
    ((callApi dec decErr env).outcome.isError = true ↔
      ((∃ e, env.doResult = .error e) ∨
        (∃ res, env.doResult = .ok res ∧
          (res.StatusCode ≠ 200 ∨ ∃ m, dec res.bodyBytes = .error m)))) ∧
    (∀ n b1 b2 sc body,
      callApi dec decErr
          { newReqOk := n,
            doResult := .ok { StatusCode := sc, bodyBytes := body, readErr := b1 } } =
        callApi dec decErr
          { newReqOk := n,
            doResult := .ok { StatusCode := sc, bodyBytes := body, readErr := b2 } }) ∧
    (∀ env2 : HttpEnv, env2.newReqOk = false →
      callApi dec decErr env2 = { outcome := .panicked, clientInvoked := false }) := by
  refine ⟨?_, ?_, ?_⟩
  · cases hdo : env.doResult with
    | error e =>
      simp [callApi, hreq, hdo, CallOutcome.isError]
    | ok res =>
      by_cases hsc : res.StatusCode = 200
      · cases hdec : dec res.bodyBytes with
        | error m => simp [callApi, hreq, hdo, hsc, hdec, CallOutcome.isError]
        | ok t => simp [callApi, hreq, hdo, hsc, hdec, CallOutcome.isError]
      · cases hdecErr : decErr res.bodyBytes with
        | error m => simp [callApi, hreq, hdo, hsc, hdecErr, CallOutcome.isError]
        | ok errs => simp [callApi, hreq, hdo, hsc, hdecErr, CallOutcome.isError]
  · intro n b1 b2 sc body
    cases n <;> rfl
  · intro env2 h2
    simp [callApi, h2]

/-- Witness for callApi_error_conditions at a concrete environment with a
non-200 response. -/
theorem callApi_error_conditions_witness :
    (callApi decNat decApiErrs env500errs).outcome.isError = true := by
  have h := (callApi_error_conditions decNat decApiErrs env500errs rfl).1
  exact h.mpr (Or.inr ⟨{ StatusCode := 500, bodyBytes := "errs", readErr := false },
    rfl, Or.inl (by decide)⟩)

/-- C4, counterexample to the claim as stated: a decoded collection that is
present but empty makes GetServers and GetServerBackups succeed with the empty
list, not fail with the domain error. -/
theorem get_collections_empty_succeeds :
    GetServers (fun _ => .ok { Servers := some [] }) decApiErrs env200empty = .ok [] ∧
    GetServerBackups (fun _ => .ok { Backups := some [] }) decApiErrs env200empty = .ok [] ∧
    GetServers (fun _ => .ok { Servers := some [] }) decApiErrs env200empty ≠
      .domainError ("no servers returned") :=
  ⟨rfl, rfl, by decide⟩

/-- C4 as amended: when the HTTP call succeeds and the decoded collection
field is absent (a Go nil slice), GetServers fails with "no servers returned"
and GetServerBackups fails with "no backups returned". -/
theorem get_collections_nil_fails
    (decS : String → Except String Servers) (decB : String → Except String Backups)
    (decErr : String → Except String ApiErrors) (envS envB : HttpEnv)
    (sv : Servers) (bk : Backups)
    (hS : (callApi decS decErr envS).outcome = .ok sv) (hSnil : sv.Servers = none)
    (hB : (callApi decB decErr envB).outcome = .ok bk) (hBnil : bk.Backups = none) :
    GetServers decS decErr envS = .domainError ("no servers returned") ∧
    GetServerBackups decB decErr envB = .domainError ("no backups returned") := by
  constructor
  · simp [GetServers, hS, hSnil]
  · simp [GetServerBackups, hB, hBnil]

/-- Witness for get_collections_nil_fails at concrete decoders producing the
absent collection. -/
theorem get_collections_nil_fails_witness :
    GetServers (fun _ => .ok { Servers := none }) decApiErrs env200empty =
      .domainError ("no servers returned") ∧
    GetServerBackups (fun _ => .ok { Backups := none }) decApiErrs env200empty =
      .domainError ("no backups returned") :=
  get_collections_nil_fails (fun _ => .ok { Servers := none })
    (fun _ => .ok { Backups := none }) decApiErrs env200empty env200empty
    { Servers := none } { Backups := none } rfl rfl rfl rfl

lemma backupWaitLoop_pending_prefix (fetch : Nat → String → Except String Backup) :
    ∀ (k j fuel : Nat) (uuid : String),
      (∀ i, i < k → ∀ u, ∃ bp, fetch (j + i) u = .ok bp ∧ bp.Attributes.CompletedAt = 0) →
      ∃ u2, backupWaitLoop fetch uuid j (k + fuel) =
        (List.replicate k .fetch ++ (backupWaitLoop fetch u2 (j + k) fuel).1,
          (backupWaitLoop fetch u2 (j + k) fuel).2) := by
  intro k
  induction k with
  | zero =>
    intro j fuel uuid _
    refine ⟨uuid, ?_⟩
    simp
  | succ k ih =>
    intro j fuel uuid hpend
    obtain ⟨bp, hfetch, hzero⟩ := hpend 0 (Nat.succ_pos k) uuid
    rw [Nat.add_zero] at hfetch
    have hstep : backupWaitLoop fetch uuid j (k + 1 + fuel) =
        (.fetch :: (backupWaitLoop fetch bp.Attributes.UUID (j + 1) (k + fuel)).1,
          (backupWaitLoop fetch bp.Attributes.UUID (j + 1) (k + fuel)).2) := by
      have harith : k + 1 + fuel = (k + fuel) + 1 := by omega
      rw [harith]
      simp [backupWaitLoop, hfetch, hzero]
    have hshift : ∀ i, i < k → ∀ u, ∃ bp2,
        fetch (j + 1 + i) u = .ok bp2 ∧ bp2.Attributes.CompletedAt = 0 := by
      intro i hi u
      have hmem := hpend (i + 1) (Nat.succ_lt_succ hi) u
      rwa [show j + (i + 1) = j + 1 + i by omega] at hmem
    obtain ⟨u2, hrest⟩ := ih (j + 1) fuel bp.Attributes.UUID hshift
    refine ⟨u2, ?_⟩
    rw [hstep, hrest]
    rw [show j + 1 + k = j + (k + 1) by omega]
    simp [List.replicate_succ]

lemma countFetches_replicate_fetch_append (n : Nat) (l : List PollEvent) :
    countFetches (List.replicate n .fetch ++ l) = n + countFetches l := by
  induction n with
  | zero => simp [countFetches]
  | succ k ih =>
    have hcons : countFetches (List.replicate (k + 1) .fetch ++ l) =
        countFetches (List.replicate k .fetch ++ l) + 1 := by
      rw [List.replicate_succ, List.cons_append]
      simp [countFetches]
    rw [hcons, ih]
    omega

/-- C6: when the completion timestamp, as reported by the fetches, becomes
non-zero for the first time on the N-th poll, BackupServerWithWait performs
exactly N fetches, terminates, and returns the record of that N-th fetch. -/
theorem BackupServerWithWait_exact_fetches
    (create : Except String Backup) (fetch : Nat → String → Except String Backup)
    (N : Nat) (b0 b : Backup) (fuel : Nat)
    (hc : create = .ok b0) (hN : 0 < N)
    (hpend : ∀ i, i + 1 < N → ∀ u, ∃ bp, fetch i u = .ok bp ∧ bp.Attributes.CompletedAt = 0)
    (hcomp : ∀ u, fetch (N - 1) u = .ok b) (hb : b.Attributes.CompletedAt ≠ 0)
    (hfuel : N ≤ fuel) :
    (BackupServerWithWait create fetch fuel).2 = some (.ok b) ∧
    countFetches (BackupServerWithWait create fetch fuel).1 = N := by
  subst hc
  have hfuel2 : fuel = (N - 1) + (fuel - N + 1) := by omega
  have hpend2 : ∀ i, i < N - 1 → ∀ u, ∃ bp,
      fetch (0 + i) u = .ok bp ∧ bp.Attributes.CompletedAt = 0 := by
    intro i hi u
    have hmem := hpend i (by omega) u
    rwa [Nat.zero_add]
  obtain ⟨u2, heq⟩ := backupWaitLoop_pending_prefix fetch (N - 1) 0 (fuel - N + 1)
    b0.Attributes.UUID hpend2
  have hdone : backupWaitLoop fetch u2 (0 + (N - 1)) (fuel - N + 1) =
      ([.fetch, .sleep WaitForBackupSeconds], some (.ok b)) := by
    rw [Nat.zero_add]
    obtain ⟨m2, hm2⟩ : ∃ m2, fuel - N + 1 = m2 + 1 := ⟨fuel - N, rfl⟩
    rw [hm2]
    simp [backupWaitLoop, hcomp u2, hb]
  have hmain : BackupServerWithWait (.ok b0) fetch fuel =
      (List.replicate (N - 1) .fetch ++ [.fetch, .sleep WaitForBackupSeconds],
        some (.ok b)) := by
    show backupWaitLoop fetch b0.Attributes.UUID 0 fuel = _
    rw [hfuel2, heq, hdone]
  rw [hmain]
  refine ⟨rfl, ?_⟩
  rw [countFetches_replicate_fetch_append]
  simp only [countFetches]
  omega

/-- Witness for BackupServerWithWait_exact_fetches: the second poll is the
first completed one, so exactly two fetches happen and the second record is
returned. -/
theorem BackupServerWithWait_exact_fetches_witness :
    (BackupServerWithWait (.ok pendingB) pollFetchPendingThenDone 5).2 =
      some (.ok completedB) ∧
    countFetches (BackupServerWithWait (.ok pendingB) pollFetchPendingThenDone 5).1 = 2 := by
  refine BackupServerWithWait_exact_fetches (.ok pendingB) pollFetchPendingThenDone
    2 pendingB completedB 5 rfl (by decide) ?_ (fun u => rfl) (by decide) (by decide)
  intro i hi u
  have hzero : i = 0 := by omega
  subst hzero
  exact ⟨pendingB, rfl, rfl⟩

/-- C7: when a poll fetch fails after any number of pending polls, the wait
aborts at once with that error (the Go code returns nil and the error), with
no sleep and no further fetch: the failing call is never retried. -/
theorem BackupServerWithWait_error_aborts
    (create : Except String Backup) (fetch : Nat → String → Except String Backup)
    (k : Nat) (b0 : Backup) (e : String) (fuel : Nat)
    (hc : create = .ok b0)
    (hpend : ∀ i, i < k → ∀ u, ∃ bp, fetch i u = .ok bp ∧ bp.Attributes.CompletedAt = 0)
    (herr : ∀ u, fetch k u = .error e)
    (hfuel : k < fuel) :
    BackupServerWithWait create fetch fuel =
      (List.replicate (k + 1) .fetch, some (.error e)) := by
  subst hc
  have hfuel2 : fuel = k + (fuel - k - 1 + 1) := by omega
  have hpend2 : ∀ i, i < k → ∀ u, ∃ bp,
      fetch (0 + i) u = .ok bp ∧ bp.Attributes.CompletedAt = 0 := by
    intro i hi u
    have hmem := hpend i hi u
    rwa [Nat.zero_add]
  obtain ⟨u2, heq⟩ := backupWaitLoop_pending_prefix fetch k 0 (fuel - k - 1 + 1)
    b0.Attributes.UUID hpend2
  have hdone : backupWaitLoop fetch u2 (0 + k) (fuel - k - 1 + 1) =
      ([.fetch], some (.error e)) := by
    rw [Nat.zero_add]
    simp [backupWaitLoop, herr u2]
  show backupWaitLoop fetch b0.Attributes.UUID 0 fuel = _
  rw [hfuel2, heq, hdone]
  rw [List.replicate_succ']

/-- Witness for BackupServerWithWait_error_aborts: one pending poll, then a
failing poll; the wait returns that error after exactly two fetches. -/
theorem BackupServerWithWait_error_aborts_witness :
    BackupServerWithWait (.ok pendingB) pollFetchPendingThenError 5 =
      (List.replicate 2 .fetch, some (.error ("boom"))) := by
  refine BackupServerWithWait_error_aborts (.ok pendingB) pollFetchPendingThenError
    1 pendingB "boom" 5 rfl ?_ (fun u => rfl) (by decide)
  intro i hi u
  have hzero : i = 0 := by omega
  subst hzero
  exact ⟨pendingB, rfl, rfl⟩

/-- C1, behavior of the code at the failing input: with a pending first fetch
and a completed second fetch, the wait loop performs the second fetch with no
sleep in between, then sleeps once after the completed fetch and returns; the
trace the claimed state machine predicts (sleep after the pending fetch, no
sleep after the completed one) does not occur. -/
theorem backupServerWithWait_sleeps_after_completion :
    BackupServerWithWait (.ok pendingB) pollFetchPendingThenDone 5 =
      ([.fetch, .fetch, .sleep WaitForBackupSeconds], some (.ok completedB)) ∧
    (BackupServerWithWait (.ok pendingB) pollFetchPendingThenDone 5).1 ≠
      [.fetch, .sleep WaitForBackupSeconds, .fetch] :=
  ⟨rfl, by decide⟩

/-- C5: DownloadServerBackup touches the destination only when the second,
signed-URL response has status 200: on any other status it returns the error
built from the numeric status code alone (no error-body decoding: the result
is independent of the body), creates no file and leaves the prior destination
contents unchanged; and whenever the destination state was touched at all, the
second response did have status 200. -/
theorem DownloadServerBackup_non200_writes_nothing
    (urlRes : Except CallError BackupUrl) (doRes : String → Except String (Nat × String))
    (createRes : Except String Unit) (copyRes : String → Except (String × String) Unit)
    (dest0 : Option String) :
    ((DownloadServerBackup urlRes doRes createRes copyRes dest0).2 =
        { destContents := dest0, handle := .notCreated } ∨
      ∃ u body, urlRes = .ok u ∧ doRes u.Attributes.URL = .ok (200, body)) ∧
    (∀ u status body, urlRes = .ok u → doRes u.Attributes.URL = .ok (status, body) →
      status ≠ 200 →
      DownloadServerBackup urlRes doRes createRes copyRes dest0 =
        (.error (.statusNot200 status), { destContents := dest0, handle := .notCreated }) ∧
      DownloadError.message (.statusNot200 status) =
        "download failed with status code " ++ toString status) := by
  constructor
  · cases hurl : urlRes with
    | error e =>
      left
      simp [DownloadServerBackup, hurl]
    | ok u =>
      cases hdo : doRes u.Attributes.URL with
      | error e2 =>
        left
        simp [DownloadServerBackup, hurl, hdo]
      | ok sb =>
        by_cases hst : sb.1 = 200
        · right
          exact ⟨u, sb.2, rfl, by rw [hdo, ← hst]⟩
        · left
          simp [DownloadServerBackup, hurl, hdo, hst]
  · intro u status body hurl hdo hst
    refine ⟨?_, rfl⟩
    simp [DownloadServerBackup, hurl, hdo, hst]

/-- Witness for DownloadServerBackup_non200_writes_nothing at a concrete 404
response on the signed URL. -/
theorem DownloadServerBackup_non200_writes_nothing_witness :
    DownloadServerBackup (.ok { Attributes := { URL := "u" } })
        (fun _ => .ok (404, "nope")) (.ok ()) (fun _ => .ok ()) none =
      (.error (.statusNot200 404), { destContents := none, handle := .notCreated }) ∧
    DownloadError.message (.statusNot200 404) =
      "download failed with status code " ++ toString 404 :=
  (DownloadServerBackup_non200_writes_nothing (.ok { Attributes := { URL := "u" } })
    (fun _ => .ok (404, "nope")) (.ok ()) (fun _ => .ok ()) none).2
    { Attributes := { URL := "u" } } 404 "nope" rfl rfl (by decide)

/-- C8: whenever DownloadServerBackup returns successfully, the deferred
out.Close() has already run on every path that follows os.Create, so the file
handle handed back to the caller is closed by the time the function returns. -/
theorem DownloadServerBackup_returned_handle_closed
    (urlRes : Except CallError BackupUrl) (doRes : String → Except String (Nat × String))
    (createRes : Except String Unit) (copyRes : String → Except (String × String) Unit)
    (dest0 : Option String)
    (h : (DownloadServerBackup urlRes doRes createRes copyRes dest0).1 = .ok ()) :
    (DownloadServerBackup urlRes doRes createRes copyRes dest0).2.handle = .closed := by
  cases hurl : urlRes with
  | error e => simp [DownloadServerBackup, hurl] at h
  | ok u =>
    cases hdo : doRes u.Attributes.URL with
    | error e2 => simp [DownloadServerBackup, hurl, hdo] at h
    | ok sb =>
      by_cases hst : sb.1 = 200
      · cases hcr : createRes with
        | error m => simp [DownloadServerBackup, hurl, hdo, hst, hcr] at h
        | ok u1 =>
          cases hcopy : copyRes sb.2 with
          | error f => simp [DownloadServerBackup, hurl, hdo, hst, hcr, hcopy] at h
          | ok u2 => simp [DownloadServerBackup, hurl, hdo, hst, hcr, hcopy]
      · simp [DownloadServerBackup, hurl, hdo, hst] at h

/-- Witness for DownloadServerBackup_returned_handle_closed at a fully
successful concrete run. -/
theorem DownloadServerBackup_returned_handle_closed_witness :
    (DownloadServerBackup (.ok { Attributes := { URL := "u" } })
        (fun _ => .ok (200, "B")) (.ok ()) (fun _ => .ok ()) none).2.handle = .closed :=
  DownloadServerBackup_returned_handle_closed (.ok { Attributes := { URL := "u" } })
    (fun _ => .ok (200, "B")) (.ok ()) (fun _ => .ok ()) none rfl

end PterodactylSDK
